import Mathlib

/-!
Verification development for fitness.py, a small library that builds and
queries an SQLite table of FITS header metadata.  The source operations
(Database.insert_from_file, Database.query, Database.query_files,
Database.rebuild_tables, Database.flush, Database._confirm) are embedded
shallowly: the files table is a list of fixed-column records, SQLite
errors and Python exceptions become an explicit error type, and the
interactive prompt becomes an explicit answer string.
-/

set_option autoImplicit false

namespace Fitness

/-! ### Configuration (fitness.py, conf dict, lines 20-37) -/

/-- The sqlite storage file, conf entry dbfile. -/
def dbfile : String := "database.db"

/-- The directory where the data is stored, conf entry basedir. -/
def basedir : String := "/home/rtr/"

/-- One entry of conf header_keywords: SQL datatype and column name. -/
structure ColSettings where
  datatype : String
  name : String
deriving DecidableEq, Repr

/-- conf header_keywords: keyword to column settings, in dict literal order. -/
def header_keywords : List (String × ColSettings) :=
  [("IMAGETYP", ⟨"CHARACTER(8)", "imagetype"⟩),
   ("EXPTIME", ⟨"FLOAT", "exptime"⟩),
   ("PROJECT", ⟨"CHARACTER(16)", "project"⟩),
   ("OBJECT", ⟨"CHARACTER(32)", "object"⟩),
   ("SLIT", ⟨"TINYINT", "slit"⟩),
   ("I2POS", ⟨"TINYINT", "i2pos"⟩),
   ("IODID", ⟨"TINYINT", "iodid"⟩),
   ("DATE-OBS", ⟨"DATETIME", "date"⟩)]

/-! ### String helpers (modelling Python str operations structurally) -/

/-- Join a list of strings with a separator, as sep.join(xs) in Python. -/
def joinWith (sep : String) : List String → String
  | [] => ""
  | [x] => x
  | x :: xs => x ++ sep ++ joinWith sep xs

/-- Whether the first list is a contiguous segment of the second. -/
def subOccurs (sub : List Char) : List Char → Bool
  | [] => sub.isEmpty
  | c :: rest => sub.isPrefixOf (c :: rest) || subOccurs sub rest

/-- Python membership test sub in s on strings. -/
def pyIn (sub s : String) : Bool := subOccurs sub.data s.data

/-- Python str.lower, restricted to the ASCII mapping of Char.toLower. -/
def pyLower (s : String) : String := String.mk (s.data.map Char.toLower)

/-- Split a character list on a separator character. -/
def splitCharsOn (sep : Char) : List Char → List (List Char)
  | [] => [[]]
  | c :: rest =>
    let r := splitCharsOn sep rest
    if c = sep then [] :: r
    else
      match r with
      | [] => [[c]]
      | g :: gs => (c :: g) :: gs

/-- Path components of a slash-separated path, dropping empty and dot parts
(the effect of normalization inside os.path.relpath for paths without
dot-dot segments). -/
def pathParts (p : String) : List String :=
  ((splitCharsOn '/' p.data).map String.mk).filter (fun s => !(s == "" || s == "."))

/-- Length of the common prefix of two component lists. -/
def commonPrefixLen : List String → List String → Nat
  | a :: as, b :: bs => if a = b then commonPrefixLen as bs + 1 else 0
  | _, _ => 0

/-- os.path.relpath(path, start) for normalized absolute POSIX inputs, as
used on line 96 of fitness.py with start = conf basedir. -/
def os_path_relpath (path start : String) : String :=
  let p := pathParts path
  let s := pathParts start
  let i := commonPrefixLen p s
  let rest := List.replicate (s.length - i) ".." ++ p.drop i
  if rest.isEmpty then "." else joinWith "/" rest

/-! ### datetime.strptime with format %Y-%m-%dT%H:%M:%S.%f (line 103-104)

CPython strptime compiles the format to a regex (IGNORECASE for literal
characters) and then validates the captured fields through the datetime
constructor.  The parser below follows that regex alternative by
alternative for this fixed format. -/

/-- A parsed datetime value (what datetime.datetime holds for this format). -/
structure PDateTime where
  year : Nat
  month : Nat
  day : Nat
  hour : Nat
  minute : Nat
  second : Nat
  microsecond : Nat
deriving DecidableEq, Repr

/-- Numeric value of an ASCII digit character. -/
def digitVal (c : Char) : Option Nat :=
  if c.isDigit then some (c.toNat - 48) else none

/-- Exactly four digits, the regex group for %Y. -/
def parse4 : List Char → Option (Nat × List Char)
  | c1 :: c2 :: c3 :: c4 :: rest => do
    let d1 ← digitVal c1
    let d2 ← digitVal c2
    let d3 ← digitVal c3
    let d4 ← digitVal c4
    some (1000 * d1 + 100 * d2 + 10 * d3 + d4, rest)
  | _ => none

/-- A one- or two-digit field: two digits when the two-digit value is one of
the two-digit regex alternatives, else one digit when it matches the
one-digit alternative (mirrors the ordered alternation in CPython
strptime regexes such as 1[0-2]|0[1-9]|[1-9] for %m). -/
def parse2or1 (two : Nat → Bool) (one : Nat → Bool) : List Char → Option (Nat × List Char)
  | [] => none
  | [c] => do
    let d ← digitVal c
    if one d then some (d, []) else none
  | c1 :: c2 :: rest =>
    match digitVal c1 with
    | none => none
    | some d1 =>
      match digitVal c2 with
      | none => if one d1 then some (d1, c2 :: rest) else none
      | some d2 =>
        let n := 10 * d1 + d2
        if two n then some (n, rest)
        else if one d1 then some (d1, c2 :: rest) else none

/-- A literal format character; CPython compiles literals with IGNORECASE. -/
def parseLit (lit : Char) : List Char → Option (List Char)
  | [] => none
  | c :: rest => if c.toLower = lit.toLower then some rest else none

/-- Up to n leading digits of the input. -/
def takeUpTo : Nat → List Char → (List Nat × List Char)
  | 0, cs => ([], cs)
  | _ + 1, [] => ([], [])
  | n + 1, c :: rest =>
    match digitVal c with
    | none => ([], c :: rest)
    | some d =>
      let (ds, cs) := takeUpTo n rest
      (d :: ds, cs)

/-- Digits to a natural number, most significant first. -/
def digitsToNat (ds : List Nat) : Nat := ds.foldl (fun a d => 10 * a + d) 0

/-- The %f group: one to six digits, right-padded with zeros to microseconds. -/
def parseMicro (cs : List Char) : Option (Nat × List Char) :=
  let (ds, rest) := takeUpTo 6 cs
  if ds.isEmpty then none
  else some (digitsToNat ds * 10 ^ (6 - ds.length), rest)

/-- Gregorian leap year test used by the datetime constructor. -/
def isLeap (y : Nat) : Bool := y % 4 = 0 && (y % 100 ≠ 0 || y % 400 = 0)

/-- Number of days in a month, as validated by the datetime constructor. -/
def daysInMonth (y m : Nat) : Nat :=
  if m = 2 then (if isLeap y then 29 else 28)
  else if m = 4 ∨ m = 6 ∨ m = 9 ∨ m = 11 then 30
  else 31

/-- datetime.strptime(s, the fixed format of line 104): the full input must
match, and the captured fields must form a valid datetime (year at least
one, day within the month, second at most 59). -/
def strptimeDT (s : String) : Option PDateTime := do
  let cs := s.data
  let (y, cs) ← parse4 cs
  let cs ← parseLit '-' cs
  let (mo, cs) ← parse2or1 (fun n => 1 ≤ n && n ≤ 12) (fun n => 1 ≤ n) cs
  let cs ← parseLit '-' cs
  let (d, cs) ← parse2or1 (fun n => 1 ≤ n && n ≤ 31) (fun n => 1 ≤ n) cs
  let cs ← parseLit 'T' cs
  let (h, cs) ← parse2or1 (fun n => n ≤ 23) (fun _ => true) cs
  let cs ← parseLit ':' cs
  let (mi, cs) ← parse2or1 (fun n => n ≤ 59) (fun _ => true) cs
  let cs ← parseLit ':' cs
  let (sec, cs) ← parse2or1 (fun n => n ≤ 61) (fun _ => true) cs
  let cs ← parseLit '.' cs
  let (f, cs) ← parseMicro cs
  if cs.isEmpty ∧ 1 ≤ y ∧ d ≤ daysInMonth y mo ∧ sec ≤ 59 then
    some ⟨y, mo, d, h, mi, sec, f⟩
  else none

/-! ### Values, records, errors -/

/-- A value stored in the table or found in a FITS header: a string, an
integer, or a parsed datetime. -/
inductive Value where
  | s (v : String)
  | i (v : Int)
  | t (v : PDateTime)
deriving DecidableEq, Repr

/-- The record dict r of insert_from_file always holds exactly the columns
of the files table (initialized on line 94 from self.columns and updated
only at mapped column names), so it is embedded as a structure with one
field per column. -/
structure Record where
  path : Value
  imagetype : Value
  exptime : Value
  project : Value
  object : Value
  slit : Value
  i2pos : Value
  iodid : Value
  date : Value
deriving DecidableEq, Repr

/-- Errors raised by the embedded operations: the sqlite readonly-database
OperationalError, the missing-table OperationalError, an SQL syntax
OperationalError carrying the offending statement, the ValueError from
strptime carrying the offending header value, a TypeError, a KeyError. -/
inductive DbError where
  | permissionDenied
  | noSuchTable
  | sqlSyntax (sql : String)
  | dateParse (value : String)
  | typeErr
  | keyErr
deriving DecidableEq, Repr

/-- self.columns as built in Database.__init__ (lines 58-60): path first,
then one entry per header keyword in configuration order. -/
def columnsList : List (String × String) :=
  ("path", "CHARACTER(72) UNIQUE") :: header_keywords.map (fun kc => (kc.2.name, kc.2.datatype))

/-- The keys of self.columns, in order. -/
def columnNames : List String := columnsList.map (fun kv => kv.1)

/-- A FITS primary header: ordered key-value pairs with first-match lookup. -/
abbrev Header := List (String × Value)

/-- header[key] as an optional lookup; a KeyError corresponds to none. -/
def headerLookup (h : Header) (key : String) : Option Value :=
  (h.find? (fun kv => kv.1 = key)).map (fun kv => kv.2)

/-- The files table: rows in rowid (insertion) order. -/
abbrev Table := List Record

/-- The connection mode of the Database handle. -/
inductive Mode where
  | readOnly
  | readWrite
deriving DecidableEq, Repr

/-- Database.__init__ (lines 46-55): the connection is read-only exactly
when readonly is requested and os.path.isfile(dbfile) holds; otherwise the
file is opened normally, read-write. -/
def connMode (readonly fileIsFile : Bool) : Mode :=
  if readonly && fileIsFile then .readOnly else .readWrite

/-- The record with every column set to the empty string, line 94. -/
def emptyRecord : Record :=
  ⟨.s "", .s "", .s "", .s "", .s "", .s "", .s "", .s "", .s ""⟩

/-- r[name] = v for a column name; names outside the column set leave the
record unchanged (insert_from_file only assigns mapped column names). -/
def setCol (r : Record) (name : String) (v : Value) : Record :=
  if name = "path" then { r with path := v }
  else if name = "imagetype" then { r with imagetype := v }
  else if name = "exptime" then { r with exptime := v }
  else if name = "project" then { r with project := v }
  else if name = "object" then { r with object := v }
  else if name = "slit" then { r with slit := v }
  else if name = "i2pos" then { r with i2pos := v }
  else if name = "iodid" then { r with iodid := v }
  else if name = "date" then { r with date := v }
  else r

/-- row[name] for a column name; none models a KeyError. -/
def getCol (r : Record) (name : String) : Option Value :=
  if name = "path" then some r.path
  else if name = "imagetype" then some r.imagetype
  else if name = "exptime" then some r.exptime
  else if name = "project" then some r.project
  else if name = "object" then some r.object
  else if name = "slit" then some r.slit
  else if name = "i2pos" then some r.i2pos
  else if name = "iodid" then some r.iodid
  else if name = "date" then some r.date
  else none

/-! ### insert_from_file (lines 91-116) -/

/-- The body of the keyword loop (lines 99-108): look the keyword up in the
header; on KeyError store the empty string; for a DATE datatype parse with
strptime (ValueError on a malformed value, TypeError on a non-string);
otherwise store the raw header value. -/
def applyKeyword (h : Header) (r : Record) (kc : String × ColSettings) : Except DbError Record :=
  match headerLookup h kc.1 with
  | none => .ok (setCol r kc.2.name (.s ""))
  | some v =>
    if pyIn "DATE" kc.2.datatype then
      match v with
      | .s str =>
        match strptimeDT str with
        | some ts => .ok (setCol r kc.2.name (.t ts))
        | none => .error (.dateParse str)
      | _ => .error .typeErr
    else .ok (setCol r kc.2.name v)

/-- The keyword loop of lines 99-108: fold applyKeyword over the remaining
keywords, propagating the first error (a raised exception leaves the with
block and aborts the call). -/
def buildRecordAux (h : Header) : Record → List (String × ColSettings) → Except DbError Record
  | r, [] => .ok r
  | r, kc :: rest =>
    match applyKeyword h r kc with
    | .error e => .error e
    | .ok r2 => buildRecordAux h r2 rest

/-- Lines 93-108: the record built from a header for a given relative path,
before the SQL insert. -/
def buildRecord (relp : String) (h : Header) : Except DbError Record :=
  buildRecordAux h (setCol emptyRecord "path" (.s relp)) header_keywords

/-- INSERT OR REPLACE INTO files keyed by the UNIQUE path column: rows
whose path equals the new path are deleted and the new row is appended. -/
def insertOrReplace (t : Table) (r : Record) : Table :=
  t.filter (fun row => decide (row.path ≠ r.path)) ++ [r]

/-- Database.insert_from_file (lines 91-116).  The record is built first
(strptime errors abort before any SQL); executing the INSERT fails on a
missing files table at prepare time and on a read-only connection at write
time; on success the row replaces any existing row with the same path and
the transaction is committed. -/
def insert_from_file (mode : Mode) (st : Option Table) (path : String) (h : Header) :
    Except DbError (Option Table) :=
  match buildRecord (os_path_relpath path basedir) h with
  | .error e => .error e
  | .ok r =>
    match st with
    | none => .error .noSuchTable
    | some t =>
      match mode with
      | .readOnly => .error .permissionDenied
      | .readWrite => .ok (some (insertOrReplace t r))

/-! ### query and query_files (lines 118-139) -/

/-- An ASCII apostrophe, used in the illegal-keyword message. -/
def sq : String := String.singleton (Char.ofNat 39)

/-- The first message printed for an unknown keyword argument (line 124). -/
def illegalMsg (k : String) : String := "Illegal keyword argument: " ++ sq ++ k ++ sq

/-- The second message printed for an unknown keyword argument (lines 125-127). -/
def allowedMsg : String := "The following keywords are allowed: " ++ joinWith ", " columnNames

/-- The SQL text assembled on line 132 from the per-keyword clauses. -/
def querySql (clauses : List String) : String :=
  "SELECT * FROM files WHERE " ++ joinWith " AND " clauses

/-- A row satisfies the conjunction of equality predicates of the query. -/
def rowMatches (kwargs : List (String × Value)) (row : Record) : Bool :=
  kwargs.all (fun kv => getCol row kv.1 = some kv.2)

/-- Database.query (lines 118-134).  Keyword arguments are checked in
order; at the first one outside self.columns two messages are printed and
None is returned (ok none).  Otherwise the WHERE clause is assembled; with
no arguments the statement SELECT * FROM files WHERE (empty expression) is
a syntax error; a missing files table is an error; otherwise the matching
rows are returned in table order. -/
def query (kwargs : List (String × Value)) (st : Option Table) :
    List String × Except DbError (Option (List Record)) :=
  match kwargs.find? (fun kv => !(columnNames.contains kv.1)) with
  | some kv => ([illegalMsg kv.1, allowedMsg], .ok none)
  | none =>
    match kwargs with
    | [] => ([], .error (.sqlSyntax (querySql [])))
    | _ :: _ =>
      match st with
      | none => ([], .error .noSuchTable)
      | some t => ([], .ok (some (t.filter (rowMatches kwargs))))

/-- Database.query_files (lines 136-139): iterate the result of query and
collect row[path]; iterating the None returned for an unknown keyword is a
TypeError. -/
def query_files (kwargs : List (String × Value)) (st : Option Table) :
    List String × Except DbError (List Value) :=
  match query kwargs st with
  | (prints, .error e) => (prints, .error e)
  | (prints, .ok none) => (prints, .error .typeErr)
  | (prints, .ok (some rows)) => (prints, .ok (rows.map (fun row => row.path)))

/-! ### Confirmation gate, rebuild_tables, flush (lines 74-89, 141-156) -/

/-- Database._confirm (lines 149-156): the answer read from input,
lowercased, must equal y. -/
def confirmAnswer (answer : String) : Bool := pyLower answer = "y"

/-- Database.rebuild_tables (lines 74-89) with the prompt answer made
explicit.  On decline nothing happens beyond the Aborted notice.  On
confirm, DROP TABLE files raises OperationalError when the table is absent
or the connection is read-only, and either way the error is swallowed by
the except clause; CREATE TABLE then fails on a read-only connection and
otherwise leaves a fresh empty table. -/
def rebuild_tables (mode : Mode) (answer : String) (st : Option Table) :
    List String × Except DbError (Option Table) :=
  if confirmAnswer answer then
    match mode with
    | .readOnly =>
      (["Are you sure? (Y/[N])", "Deleting old tables..", "Recreating tables.."],
       .error .permissionDenied)
    | .readWrite =>
      (["Are you sure? (Y/[N])", "Deleting old tables..", "Recreating tables..", "DONE!"],
       .ok (some []))
  else
    (["Are you sure? (Y/[N])", "Aborted.."], .ok st)

/-- Database.flush (lines 141-147) with the prompt answer made explicit.
On decline nothing happens beyond the Aborted notice.  On confirm, DELETE
FROM files fails at prepare time when the table is absent and at write
time on a read-only connection; otherwise all rows are removed (VACUUM
then reclaims space without changing the table). -/
def flush (mode : Mode) (answer : String) (st : Option Table) :
    List String × Except DbError (Option Table) :=
  if confirmAnswer answer then
    match st with
    | none => (["Are you sure? (Y/[N])", "Flushing.."], .error .noSuchTable)
    | some _ =>
      match mode with
      | .readOnly => (["Are you sure? (Y/[N])", "Flushing.."], .error .permissionDenied)
      | .readWrite => (["Are you sure? (Y/[N])", "Flushing..", "DONE!"], .ok (some []))
  else
    (["Are you sure? (Y/[N])", "Aborted.."], .ok st)

/-! ### Characterization of buildRecord -/

/-- The value stored for a non-date keyword: the header value if present,
else the empty string. -/
def rawOr (h : Header) (key : String) : Value := (headerLookup h key).getD (Value.s "")

/-- The record insert_from_file builds, given the value stored in the date
column. -/
def mkRec (relp : String) (h : Header) (dv : Value) : Record :=
  ⟨.s relp, rawOr h "IMAGETYP", rawOr h "EXPTIME", rawOr h "PROJECT", rawOr h "OBJECT",
   rawOr h "SLIT", rawOr h "I2POS", rawOr h "IODID", dv⟩

theorem applyKeyword_nondate (h : Header) (r : Record) (key : String) (cs : ColSettings)
    (hnd : pyIn "DATE" cs.datatype = false) :
    applyKeyword h r (key, cs) = .ok (setCol r cs.name (rawOr h key)) := by
  unfold applyKeyword rawOr
  cases headerLookup h key <;> simp [hnd]

/-- buildRecord succeeds with the record of mkRec whenever the DATE-OBS
value (if any) parses, and fails with the strptime error otherwise. -/
theorem buildRecord_char (relp : String) (h : Header) :
    buildRecord relp h =
      match headerLookup h "DATE-OBS" with
      | none => .ok (mkRec relp h (.s ""))
      | some (Value.s str) =>
        match strptimeDT str with
        | some ts => .ok (mkRec relp h (.t ts))
        | none => .error (.dateParse str)
      | some (Value.i _) => .error .typeErr
      | some (Value.t _) => .error .typeErr := by
  have s1 : ∀ r, applyKeyword h r ("IMAGETYP", ⟨"CHARACTER(8)", "imagetype"⟩) =
      .ok (setCol r "imagetype" (rawOr h "IMAGETYP")) :=
    fun r => applyKeyword_nondate h r "IMAGETYP" ⟨"CHARACTER(8)", "imagetype"⟩ rfl
  have s2 : ∀ r, applyKeyword h r ("EXPTIME", ⟨"FLOAT", "exptime"⟩) =
      .ok (setCol r "exptime" (rawOr h "EXPTIME")) :=
    fun r => applyKeyword_nondate h r "EXPTIME" ⟨"FLOAT", "exptime"⟩ rfl
  have s3 : ∀ r, applyKeyword h r ("PROJECT", ⟨"CHARACTER(16)", "project"⟩) =
      .ok (setCol r "project" (rawOr h "PROJECT")) :=
    fun r => applyKeyword_nondate h r "PROJECT" ⟨"CHARACTER(16)", "project"⟩ rfl
  have s4 : ∀ r, applyKeyword h r ("OBJECT", ⟨"CHARACTER(32)", "object"⟩) =
      .ok (setCol r "object" (rawOr h "OBJECT")) :=
    fun r => applyKeyword_nondate h r "OBJECT" ⟨"CHARACTER(32)", "object"⟩ rfl
  have s5 : ∀ r, applyKeyword h r ("SLIT", ⟨"TINYINT", "slit"⟩) =
      .ok (setCol r "slit" (rawOr h "SLIT")) :=
    fun r => applyKeyword_nondate h r "SLIT" ⟨"TINYINT", "slit"⟩ rfl
  have s6 : ∀ r, applyKeyword h r ("I2POS", ⟨"TINYINT", "i2pos"⟩) =
      .ok (setCol r "i2pos" (rawOr h "I2POS")) :=
    fun r => applyKeyword_nondate h r "I2POS" ⟨"TINYINT", "i2pos"⟩ rfl
  have s7 : ∀ r, applyKeyword h r ("IODID", ⟨"TINYINT", "iodid"⟩) =
      .ok (setCol r "iodid" (rawOr h "IODID")) :=
    fun r => applyKeyword_nondate h r "IODID" ⟨"TINYINT", "iodid"⟩ rfl
  have hdt : pyIn "DATE" "DATETIME" = true := rfl
  simp only [buildRecord, header_keywords, buildRecordAux, s1, s2, s3, s4, s5, s6, s7]
  simp only [applyKeyword, hdt, if_true]
  rcases hval : headerLookup h "DATE-OBS" with _ | v
  · rfl
  · rcases v with str | n | ts
    · rcases hp : strptimeDT str with _ | ts
      · simp only [hp]
      · simp only [hp]
        rfl
    · rfl
    · rfl

/-! ### Table helper lemmas -/

/-- The rows of a table whose path column equals v, in table order. -/
def rowsFor (t : Table) (v : Value) : Table :=
  t.filter (fun row => decide (row.path = v))

/-- The number of rows of a table whose path column equals v. -/
def pathCount (t : Table) (v : Value) : Nat :=
  t.countP (fun row => decide (row.path = v))

/-- The invariant enforced by the UNIQUE path column together with
INSERT OR REPLACE: at most one row per path value. -/
def pathUnique (t : Table) : Prop := ∀ v : Value, pathCount t v ≤ 1

theorem filter_path_of_ne (t : Table) (r : Record) (v : Value) (hrv : r.path ≠ v) :
    (t.filter (fun row => decide (row.path ≠ r.path))).filter (fun row => decide (row.path = v)) =
      t.filter (fun row => decide (row.path = v)) := by
  rw [List.filter_filter]
  apply List.filter_congr
  intro a _
  by_cases hav : a.path = v
  · have har : a.path ≠ r.path := fun hh => hrv (hh ▸ hav)
    simp [hav, har]
    exact fun hh => hrv hh.symm
  · simp [hav]

theorem rowsFor_insertOrReplace (t : Table) (r : Record) (v : Value) :
    rowsFor (insertOrReplace t r) v = if r.path = v then [r] else rowsFor t v := by
  unfold rowsFor insertOrReplace
  rw [List.filter_append]
  by_cases hrv : r.path = v
  · subst hrv
    have h1 : (t.filter (fun row => decide (row.path ≠ r.path))).filter
        (fun row => decide (row.path = r.path)) = [] := by
      rw [List.filter_filter]
      apply List.filter_eq_nil_iff.mpr
      intro a _
      simp
    rw [h1]
    simp
  · rw [filter_path_of_ne t r v hrv]
    have h2 : [r].filter (fun row => decide (row.path = v)) = [] := by simp [hrv]
    rw [h2, List.append_nil, if_neg hrv]

theorem pathCount_insertOrReplace (t : Table) (r : Record) (v : Value) :
    pathCount (insertOrReplace t r) v = if r.path = v then 1 else pathCount t v := by
  have h := rowsFor_insertOrReplace t r v
  unfold rowsFor at h
  unfold pathCount
  rw [List.countP_eq_length_filter, h]
  by_cases hrv : r.path = v <;> simp [hrv, List.countP_eq_length_filter]

theorem insertOrReplace_idem (t : Table) (r : Record) :
    insertOrReplace (insertOrReplace t r) r = insertOrReplace t r := by
  unfold insertOrReplace
  rw [List.filter_append, List.filter_filter]
  have h1 : (List.filter (fun row => decide (row.path ≠ r.path) && decide (row.path ≠ r.path)) t)
      = t.filter (fun row => decide (row.path ≠ r.path)) := by
    apply List.filter_congr
    intro a _
    simp
  have h2 : [r].filter (fun row => decide (row.path ≠ r.path)) = [] := by simp
  rw [h1, h2, List.append_nil]

/-! ### Shape lemmas for insert_from_file -/

/-- Whether the DATE-OBS header value, if present, is a string that
strptime accepts; the only way the keyword loop can fail. -/
def dateOk (h : Header) : Bool :=
  match headerLookup h "DATE-OBS" with
  | none => true
  | some (.s str) => (strptimeDT str).isSome
  | some _ => false

/-- A successful buildRecord always yields a mkRec record; the date column
value is the empty string whenever DATE-OBS is absent. -/
theorem buildRecord_ok_shape (relp : String) (h : Header) (r : Record)
    (hb : buildRecord relp h = .ok r) :
    ∃ dv, r = mkRec relp h dv ∧ (headerLookup h "DATE-OBS" = none → dv = Value.s "") := by
  rw [buildRecord_char] at hb
  rcases hval : headerLookup h "DATE-OBS" with _ | v <;> rw [hval] at hb
  · exact ⟨.s "", (Except.ok.inj hb).symm, fun _ => rfl⟩
  · rcases v with str | n | ts
    · have hb2 : (match strptimeDT str with
          | some ts => (Except.ok (mkRec relp h (Value.t ts)) : Except DbError Record)
          | none => Except.error (DbError.dateParse str)) = Except.ok r := hb
      rcases hp : strptimeDT str with _ | ts <;> rw [hp] at hb2
      · simp at hb2
      · exact ⟨.t ts, (Except.ok.inj hb2).symm, fun hc => Option.noConfusion hc⟩
    · simp at hb
    · simp at hb

/-- buildRecord succeeds exactly when the DATE-OBS value, if present, is a
string accepted by strptime. -/
theorem buildRecord_dateOk (relp : String) (h : Header)
    (hd : dateOk h = true) :
    ∃ dv, buildRecord relp h = .ok (mkRec relp h dv) ∧
      (headerLookup h "DATE-OBS" = none → dv = Value.s "") := by
  unfold dateOk at hd
  rcases hval : headerLookup h "DATE-OBS" with _ | v <;> rw [hval] at hd
  · exact ⟨.s "", by rw [buildRecord_char, hval], fun _ => rfl⟩
  · rcases v with str | n | ts
    · have hd2 : (strptimeDT str).isSome = true := hd
      rcases hp : strptimeDT str with _ | ts <;> rw [hp] at hd2
      · simp at hd2
      · refine ⟨.t ts, ?_, fun hc => Option.noConfusion hc⟩
        rw [buildRecord_char, hval]
        show (match strptimeDT str with
            | some ts2 => (Except.ok (mkRec relp h (Value.t ts2)) : Except DbError Record)
            | none => Except.error (DbError.dateParse str)) = _
        rw [hp]
    · exact Bool.noConfusion (show false = true from hd)
    · exact Bool.noConfusion (show false = true from hd)

theorem insert_rw_ok_elim (t : Table) (p : String) (h : Header) (st : Option Table)
    (hi : insert_from_file .readWrite (some t) p h = .ok st) :
    ∃ r, buildRecord (os_path_relpath p basedir) h = .ok r ∧ st = some (insertOrReplace t r) := by
  unfold insert_from_file at hi
  rcases hb : buildRecord (os_path_relpath p basedir) h with e | r <;> rw [hb] at hi
  · exact Except.noConfusion hi
  · injection hi with hi
    exact ⟨r, rfl, hi.symm⟩

theorem insert_rw_ok_intro (t : Table) (p : String) (h : Header) (r : Record)
    (hb : buildRecord (os_path_relpath p basedir) h = .ok r) :
    insert_from_file .readWrite (some t) p h = .ok (some (insertOrReplace t r)) := by
  unfold insert_from_file
  rw [hb]

theorem insert_err_intro (p : String) (h : Header) (e : DbError)
    (hb : buildRecord (os_path_relpath p basedir) h = .error e) :
    ∀ (mode : Mode) (st : Option Table), insert_from_file mode st p h = .error e := by
  intro mode st
  unfold insert_from_file
  rw [hb]

/-! ### Claim theorems -/

/-- C1: For every sequence of insert_from_file calls, the files table
contains at most one row per path value (INSERT OR REPLACE on the UNIQUE
path column preserves the at-most-one-row-per-path invariant), and
inserting a path p whose OBJECT header is A and then re-inserting p after
its OBJECT header changed to B leaves exactly one row for p whose object
column equals B — no duplicate, no stale row. -/
theorem C1_upsert_unique_path :
    (∀ (t : Table) (r : Record), pathUnique t → pathUnique (insertOrReplace t r))
    ∧
    (∀ (t0 : Table) (p : String) (h1 h2 : Header) (st1 st2 : Option Table) (B : Value),
      insert_from_file .readWrite (some t0) p h1 = .ok st1 →
      insert_from_file .readWrite st1 p h2 = .ok st2 →
      headerLookup h2 "OBJECT" = some B →
      ∃ t2 r2, st2 = some t2 ∧
        rowsFor t2 (Value.s (os_path_relpath p basedir)) = [r2] ∧
        r2.object = B) := by
  constructor
  · intro t r hu v
    rw [pathCount_insertOrReplace]
    by_cases hrv : r.path = v
    · rw [if_pos hrv]
    · rw [if_neg hrv]
      exact hu v
  · intro t0 p h1 h2 st1 st2 B i1 i2 hB
    obtain ⟨r1, hb1, hst1⟩ := insert_rw_ok_elim t0 p h1 st1 i1
    subst hst1
    obtain ⟨r2, hb2, hst2⟩ := insert_rw_ok_elim _ p h2 st2 i2
    subst hst2
    obtain ⟨dv2, hdv2, _⟩ := buildRecord_ok_shape _ _ _ hb2
    refine ⟨_, r2, rfl, ?_, ?_⟩
    · rw [rowsFor_insertOrReplace, if_pos]
      rw [hdv2]
      rfl
    · rw [hdv2]
      simp [mkRec, rawOr, hB]

/-- C1 witness: inserting /home/rtr/a.fits with OBJECT=A and re-inserting
it with OBJECT=B leaves exactly one row for a.fits with object B. -/
theorem C1_upsert_unique_path_witness :
    pathUnique (insertOrReplace [] (mkRec "a.fits" [("OBJECT", Value.s "A")] (Value.s ""))) ∧
    ∃ t2 r2,
      (some [mkRec "a.fits" [("OBJECT", Value.s "B")] (Value.s "")] : Option Table) = some t2 ∧
      rowsFor t2 (Value.s (os_path_relpath "/home/rtr/a.fits" basedir)) = [r2] ∧
      r2.object = Value.s "B" := by
  constructor
  · exact C1_upsert_unique_path.1 [] (mkRec "a.fits" [("OBJECT", Value.s "A")] (Value.s ""))
      (fun v => by simp [pathCount])
  · exact C1_upsert_unique_path.2 [] "/home/rtr/a.fits"
      [("OBJECT", Value.s "A")] [("OBJECT", Value.s "B")]
      (some [mkRec "a.fits" [("OBJECT", Value.s "A")] (Value.s "")])
      (some [mkRec "a.fits" [("OBJECT", Value.s "B")] (Value.s "")])
      (Value.s "B") rfl rfl rfl

/-- C5: insert_from_file is idempotent: a second call with the same path
and unchanged header returns the very same table state, which holds
exactly one row for that path. -/
theorem C5_insert_idempotent :
    ∀ (t : Table) (p : String) (h : Header) (st1 : Option Table),
      insert_from_file .readWrite (some t) p h = .ok st1 →
      insert_from_file .readWrite st1 p h = .ok st1 ∧
      ∃ t1 r, st1 = some t1 ∧ rowsFor t1 (Value.s (os_path_relpath p basedir)) = [r] := by
  intro t p h st1 hi
  obtain ⟨r, hb, hst⟩ := insert_rw_ok_elim t p h st1 hi
  subst hst
  constructor
  · rw [insert_rw_ok_intro (insertOrReplace t r) p h r hb, insertOrReplace_idem]
  · obtain ⟨dv, hdv, _⟩ := buildRecord_ok_shape _ _ _ hb
    refine ⟨_, r, rfl, ?_⟩
    rw [rowsFor_insertOrReplace, if_pos]
    rw [hdv]
    rfl

/-- C5 witness: inserting /home/rtr/a.fits twice with an unchanged header
gives the same single-row table both times. -/
theorem C5_insert_idempotent_witness :
    insert_from_file .readWrite
        (some [mkRec "a.fits" [("OBJECT", Value.s "M42")] (Value.s "")])
        "/home/rtr/a.fits" [("OBJECT", Value.s "M42")] =
      .ok (some [mkRec "a.fits" [("OBJECT", Value.s "M42")] (Value.s "")]) ∧
    ∃ t1 r,
      (some [mkRec "a.fits" [("OBJECT", Value.s "M42")] (Value.s "")] : Option Table) = some t1 ∧
      rowsFor t1 (Value.s (os_path_relpath "/home/rtr/a.fits" basedir)) = [r] :=
  C5_insert_idempotent [] "/home/rtr/a.fits" [("OBJECT", Value.s "M42")]
    (some [mkRec "a.fits" [("OBJECT", Value.s "M42")] (Value.s "")]) rfl

/-- C6: a header key absent from the file is not an error: the call
succeeds (provided the date value, if present at all, parses) and every
mapped column whose key is absent holds the empty sentinel value. -/
theorem C6_missing_key_default :
    ∀ (t : Table) (p : String) (h : Header),
      dateOk h = true →
      ∃ r, insert_from_file .readWrite (some t) p h = .ok (some (insertOrReplace t r)) ∧
        ∀ key cs, (key, cs) ∈ header_keywords → headerLookup h key = none →
          getCol r cs.name = some (Value.s "") := by
  intro t p h hd
  obtain ⟨dv, hb, hdate⟩ := buildRecord_dateOk (os_path_relpath p basedir) h hd
  refine ⟨mkRec (os_path_relpath p basedir) h dv, insert_rw_ok_intro t p h _ hb, ?_⟩
  intro key cs hmem habs
  simp only [header_keywords, List.mem_cons, List.not_mem_nil, or_false] at hmem
  rcases hmem with h1 | h1 | h1 | h1 | h1 | h1 | h1 | h1 <;>
      (rw [Prod.mk.injEq] at h1; obtain ⟨hk, hc⟩ := h1; subst hk; subst hc)
  · simp [getCol, mkRec, rawOr, habs]
  · simp [getCol, mkRec, rawOr, habs]
  · simp [getCol, mkRec, rawOr, habs]
  · simp [getCol, mkRec, rawOr, habs]
  · simp [getCol, mkRec, rawOr, habs]
  · simp [getCol, mkRec, rawOr, habs]
  · simp [getCol, mkRec, rawOr, habs]
  · simp [getCol, mkRec, rawOr, hdate habs]

/-- C6 witness: a file with an empty header produces a row whose mapped
columns all hold the empty string. -/
theorem C6_missing_key_default_witness :
    ∃ r, insert_from_file .readWrite (some []) "/home/rtr/a.fits" [] =
        .ok (some (insertOrReplace [] r)) ∧
      ∀ key cs, (key, cs) ∈ header_keywords → headerLookup [] key = none →
        getCol r cs.name = some (Value.s "") :=
  C6_missing_key_default [] "/home/rtr/a.fits" [] rfl

/-- C3: for the date-typed column whose key DATE-OBS is present in the
header, a value the fixed-format strptime accepts is parsed and stored as
the corresponding timestamp in the date column of the inserted row, while
a value strptime rejects makes the whole call fail with DateParseError in
every mode and state — nothing is stored, in particular not the empty
sentinel. -/
theorem C3_date_parsing :
    ∀ (t : Table) (p : String) (h : Header) (str : String),
      headerLookup h "DATE-OBS" = some (Value.s str) →
      (∀ ts, strptimeDT str = some ts →
        insert_from_file .readWrite (some t) p h =
          .ok (some (insertOrReplace t (mkRec (os_path_relpath p basedir) h (Value.t ts)))) ∧
        (mkRec (os_path_relpath p basedir) h (Value.t ts)).date = Value.t ts) ∧
      (strptimeDT str = none →
        ∀ (mode : Mode) (st : Option Table),
          insert_from_file mode st p h = .error (DbError.dateParse str)) := by
  intro t p h str hval
  constructor
  · intro ts hp
    have hb : buildRecord (os_path_relpath p basedir) h =
        .ok (mkRec (os_path_relpath p basedir) h (Value.t ts)) := by
      rw [buildRecord_char, hval]
      show (match strptimeDT str with
          | some ts2 =>
            (Except.ok (mkRec (os_path_relpath p basedir) h (Value.t ts2)) :
              Except DbError Record)
          | none => Except.error (DbError.dateParse str)) = _
      rw [hp]
    exact ⟨insert_rw_ok_intro t p h _ hb, rfl⟩
  · intro hp mode st
    have hb : buildRecord (os_path_relpath p basedir) h = .error (DbError.dateParse str) := by
      rw [buildRecord_char, hval]
      show (match strptimeDT str with
          | some ts2 =>
            (Except.ok (mkRec (os_path_relpath p basedir) h (Value.t ts2)) :
              Except DbError Record)
          | none => Except.error (DbError.dateParse str)) = _
      rw [hp]
    exact insert_err_intro p h _ hb mode st

/-- C3 witness: the value 2020-05-01T03:15:30.250000 is stored as the
corresponding timestamp, and not-a-date raises DateParseError. -/
theorem C3_date_parsing_witness :
    (insert_from_file .readWrite (some []) "/home/rtr/d.fits"
        [("DATE-OBS", Value.s "2020-05-01T03:15:30.250000")] =
      .ok (some (insertOrReplace []
        (mkRec "d.fits" [("DATE-OBS", Value.s "2020-05-01T03:15:30.250000")]
          (Value.t ⟨2020, 5, 1, 3, 15, 30, 250000⟩)))) ∧
      (mkRec "d.fits" [("DATE-OBS", Value.s "2020-05-01T03:15:30.250000")]
        (Value.t ⟨2020, 5, 1, 3, 15, 30, 250000⟩)).date =
          Value.t ⟨2020, 5, 1, 3, 15, 30, 250000⟩) ∧
    insert_from_file .readWrite (some []) "/home/rtr/d.fits"
        [("DATE-OBS", Value.s "not-a-date")] = .error (DbError.dateParse "not-a-date") :=
  ⟨(C3_date_parsing [] "/home/rtr/d.fits"
      [("DATE-OBS", Value.s "2020-05-01T03:15:30.250000")] "2020-05-01T03:15:30.250000" rfl).1
      ⟨2020, 5, 1, 3, 15, 30, 250000⟩ (by decide),
   (C3_date_parsing [] "/home/rtr/d.fits"
      [("DATE-OBS", Value.s "not-a-date")] "not-a-date" rfl).2 (by decide)
      .readWrite (some [])⟩

/-- C8: any prompt answer that does not lowercase to y declines: both
rebuild_tables and flush print the Aborted notice and leave the state
(table existence and all rows) exactly unchanged. -/
theorem C8_decline_no_side_effects :
    ∀ (mode : Mode) (answer : String) (st : Option Table),
      pyLower answer ≠ "y" →
      rebuild_tables mode answer st = (["Are you sure? (Y/[N])", "Aborted.."], .ok st) ∧
      flush mode answer st = (["Are you sure? (Y/[N])", "Aborted.."], .ok st) := by
  intro mode answer st hd
  have hc : confirmAnswer answer = false := by
    unfold confirmAnswer
    simp [hd]
  unfold rebuild_tables flush
  simp [hc]

/-- C8 witness: answering No declines and leaves a one-row table intact. -/
theorem C8_decline_no_side_effects_witness :
    rebuild_tables Mode.readWrite "No" (some [emptyRecord]) =
      (["Are you sure? (Y/[N])", "Aborted.."], .ok (some [emptyRecord])) ∧
    flush Mode.readWrite "No" (some [emptyRecord]) =
      (["Are you sure? (Y/[N])", "Aborted.."], .ok (some [emptyRecord])) :=
  C8_decline_no_side_effects Mode.readWrite "No" (some [emptyRecord]) (by decide)

/-- C7: query is exact-match conjunction over the indexed rows: after
inserting a flat file and a bias file into an empty table, querying
imagetype=flat returns exactly the flat row and query_files its path,
while querying imagetype=science returns an empty result set, not an
error. -/
theorem C7_query_roundtrip :
    ∀ (p1 p2 : String) (h1 h2 : Header) (st1 st2 : Option Table),
      headerLookup h1 "IMAGETYP" = some (Value.s "flat") →
      headerLookup h2 "IMAGETYP" = some (Value.s "bias") →
      os_path_relpath p1 basedir ≠ os_path_relpath p2 basedir →
      insert_from_file .readWrite (some []) p1 h1 = .ok st1 →
      insert_from_file .readWrite st1 p2 h2 = .ok st2 →
      ∃ r1 r2, st2 = some [r1, r2] ∧
        r1.path = Value.s (os_path_relpath p1 basedir) ∧
        query [("imagetype", Value.s "flat")] (some [r1, r2]) = ([], .ok (some [r1])) ∧
        query_files [("imagetype", Value.s "flat")] (some [r1, r2]) =
          ([], .ok [Value.s (os_path_relpath p1 basedir)]) ∧
        query [("imagetype", Value.s "science")] (some [r1, r2]) = ([], .ok (some [])) := by
  intro p1 p2 h1 h2 st1 st2 hflat hbias hne i1 i2
  obtain ⟨r1, hb1, hst1⟩ := insert_rw_ok_elim [] p1 h1 st1 i1
  subst hst1
  obtain ⟨r2, hb2, hst2⟩ := insert_rw_ok_elim _ p2 h2 st2 i2
  subst hst2
  obtain ⟨dv1, hdv1, _⟩ := buildRecord_ok_shape _ _ _ hb1
  obtain ⟨dv2, hdv2, _⟩ := buildRecord_ok_shape _ _ _ hb2
  have hpath1 : r1.path = Value.s (os_path_relpath p1 basedir) := by rw [hdv1]; rfl
  have hpath2 : r2.path = Value.s (os_path_relpath p2 basedir) := by rw [hdv2]; rfl
  have hne2 : r1.path ≠ r2.path := by
    rw [hpath1, hpath2]
    intro hh
    exact hne (Value.s.inj hh)
  have ht2 : insertOrReplace (insertOrReplace [] r1) r2 = [r1, r2] := by
    show insertOrReplace [r1] r2 = [r1, r2]
    unfold insertOrReplace
    simp [hne2]
  have him1 : r1.imagetype = Value.s "flat" := by
    rw [hdv1]
    show rawOr h1 "IMAGETYP" = Value.s "flat"
    unfold rawOr
    rw [hflat]
    rfl
  have him2 : r2.imagetype = Value.s "bias" := by
    rw [hdv2]
    show rawOr h2 "IMAGETYP" = Value.s "bias"
    unfold rawOr
    rw [hbias]
    rfl
  have hqflat : query [("imagetype", Value.s "flat")] (some [r1, r2]) =
      ([], .ok (some [r1])) := by
    show (([], Except.ok (some (List.filter (rowMatches [("imagetype", Value.s "flat")]) [r1, r2]))) :
          List String × Except DbError (Option (List Record)))
        = ([], .ok (some [r1]))
    have hm1 : rowMatches [("imagetype", Value.s "flat")] r1 = true := by
      simp [rowMatches, getCol, him1]
    have hm2 : rowMatches [("imagetype", Value.s "flat")] r2 = false := by
      simp [rowMatches, getCol, him2]
    simp [hm1, hm2]
  have hqf : query_files [("imagetype", Value.s "flat")] (some [r1, r2]) =
      ([], .ok [Value.s (os_path_relpath p1 basedir)]) := by
    unfold query_files
    rw [hqflat]
    simp [hpath1]
  have hsci : query [("imagetype", Value.s "science")] (some [r1, r2]) =
      ([], .ok (some [])) := by
    show (([], Except.ok (some (List.filter (rowMatches [("imagetype", Value.s "science")]) [r1, r2]))) :
          List String × Except DbError (Option (List Record)))
        = ([], .ok (some []))
    have hm1 : rowMatches [("imagetype", Value.s "science")] r1 = false := by
      simp [rowMatches, getCol, him1]
    have hm2 : rowMatches [("imagetype", Value.s "science")] r2 = false := by
      simp [rowMatches, getCol, him2]
    simp [hm1, hm2]
  exact ⟨r1, r2, by rw [ht2], hpath1, hqflat, hqf, hsci⟩

/-- C7 witness: a concrete flat file and bias file round-trip through
query and query_files. -/
theorem C7_query_roundtrip_witness :
    ∃ r1 r2,
      (some [mkRec "a.fits" [("IMAGETYP", Value.s "flat")] (Value.s ""),
             mkRec "b.fits" [("IMAGETYP", Value.s "bias")] (Value.s "")] : Option Table) =
        some [r1, r2] ∧
      r1.path = Value.s (os_path_relpath "/home/rtr/a.fits" basedir) ∧
      query [("imagetype", Value.s "flat")] (some [r1, r2]) = ([], .ok (some [r1])) ∧
      query_files [("imagetype", Value.s "flat")] (some [r1, r2]) =
        ([], .ok [Value.s (os_path_relpath "/home/rtr/a.fits" basedir)]) ∧
      query [("imagetype", Value.s "science")] (some [r1, r2]) = ([], .ok (some [])) :=
  C7_query_roundtrip "/home/rtr/a.fits" "/home/rtr/b.fits"
    [("IMAGETYP", Value.s "flat")] [("IMAGETYP", Value.s "bias")]
    (some [mkRec "a.fits" [("IMAGETYP", Value.s "flat")] (Value.s "")])
    (some [mkRec "a.fits" [("IMAGETYP", Value.s "flat")] (Value.s ""),
           mkRec "b.fits" [("IMAGETYP", Value.s "bias")] (Value.s "")])
    rfl rfl (by decide) rfl rfl

/-- C2 counterexample: with readonly=True but no store file on disk,
Database.__init__ opens the connection read-write, and insert_from_file
succeeds and mutates the table instead of failing with a PermissionDenied
kind of error. -/
theorem C2_readonly_counterexample :
    connMode true false = Mode.readWrite ∧
    insert_from_file (connMode true false) (some []) "/home/rtr/a.fits" [] =
      .ok (some [mkRec "a.fits" [] (Value.s "")]) ∧
    ∀ e : DbError,
      insert_from_file (connMode true false) (some []) "/home/rtr/a.fits" [] ≠ .error e := by
  have hv : insert_from_file (connMode true false) (some []) "/home/rtr/a.fits" [] =
      .ok (some [mkRec "a.fits" [] (Value.s "")]) := rfl
  refine ⟨rfl, hv, fun e hc => ?_⟩
  rw [hv] at hc
  exact Except.noConfusion hc

/-- C2 (amended): when readonly=True and the store file exists the
connection is read-only; insert_from_file then always fails (never
mutates), and the error is the readonly PermissionDenied error whenever
the record was built and the files table exists; a confirmed
rebuild_tables fails with PermissionDenied, a declined one returns the
state unchanged.  When readonly=True but the store file is absent, the
connection is opened read-write. -/
theorem C2_readonly_enforcement :
    (∀ (p : String) (h : Header) (st : Option Table),
      ∃ e, insert_from_file .readOnly st p h = .error e) ∧
    (∀ (p : String) (h : Header) (t : Table) (r : Record),
      buildRecord (os_path_relpath p basedir) h = .ok r →
      insert_from_file .readOnly (some t) p h = .error .permissionDenied) ∧
    (∀ (answer : String) (st : Option Table),
      confirmAnswer answer = true →
      rebuild_tables .readOnly answer st =
        (["Are you sure? (Y/[N])", "Deleting old tables..", "Recreating tables.."],
         .error .permissionDenied)) ∧
    (∀ (answer : String) (st : Option Table),
      confirmAnswer answer = false →
      rebuild_tables .readOnly answer st = (["Are you sure? (Y/[N])", "Aborted.."], .ok st)) ∧
    connMode true true = Mode.readOnly ∧ connMode true false = Mode.readWrite := by
  refine ⟨?_, ?_, ?_, ?_, rfl, rfl⟩
  · intro p h st
    unfold insert_from_file
    rcases hb : buildRecord (os_path_relpath p basedir) h with e | r
    · exact ⟨e, rfl⟩
    · rcases st with _ | t
      · exact ⟨.noSuchTable, rfl⟩
      · exact ⟨.permissionDenied, rfl⟩
  · intro p h t r hb
    unfold insert_from_file
    rw [hb]
  · intro answer st hc
    unfold rebuild_tables
    simp [hc]
  · intro answer st hc
    unfold rebuild_tables
    simp [hc]

/-- C2 witness: concrete read-only failures with the store file present,
confirmed and declined. -/
theorem C2_readonly_enforcement_witness :
    insert_from_file .readOnly (some []) "/home/rtr/a.fits" [] = .error .permissionDenied ∧
    rebuild_tables .readOnly "Y" (some []) =
      (["Are you sure? (Y/[N])", "Deleting old tables..", "Recreating tables.."],
       .error .permissionDenied) ∧
    rebuild_tables .readOnly "q" (some [emptyRecord]) =
      (["Are you sure? (Y/[N])", "Aborted.."], .ok (some [emptyRecord])) :=
  ⟨C2_readonly_enforcement.2.1 "/home/rtr/a.fits" [] [] (mkRec "a.fits" [] (Value.s "")) rfl,
   C2_readonly_enforcement.2.2.1 "Y" (some []) rfl,
   C2_readonly_enforcement.2.2.2.1 "q" (some [emptyRecord]) rfl⟩

/-- C4 counterexample: with the two invalid attribute names bogus and fake
supplied together, the call executes no query and returns no rows, but it
reports only bogus: the invalid supplied name fake is never reported. -/
theorem C4_unknown_attribute_counterexample :
    ("fake", Value.i 2) ∈ [("bogus", Value.i 1), ("fake", Value.i 2)] ∧
    columnNames.contains "fake" = false ∧
    (query [("bogus", Value.i 1), ("fake", Value.i 2)] (some [])).2 = .ok none ∧
    illegalMsg "fake" ∉ (query [("bogus", Value.i 1), ("fake", Value.i 2)] (some [])).1 := by
  refine ⟨by decide, rfl, rfl, by decide⟩

/-- C4 (amended): a query call with an unknown attribute name executes no
statement against the store and returns no rows (None), printing the
first invalid supplied name, in keyword order, together with the list of
valid column names. -/
theorem C4_unknown_attribute :
    ∀ (kwargs : List (String × Value)) (st : Option Table) (k : String) (v : Value),
      kwargs.find? (fun kv => !(columnNames.contains kv.1)) = some (k, v) →
      query kwargs st = ([illegalMsg k, allowedMsg], .ok none) := by
  intro kwargs st k v hf
  unfold query
  rw [hf]

/-- C4 witness: query(bogus=1) prints the bogus report and the allowed
column names and returns None. -/
theorem C4_unknown_attribute_witness :
    query [("bogus", Value.i 1)] (some []) = ([illegalMsg "bogus", allowedMsg], .ok none) :=
  C4_unknown_attribute [("bogus", Value.i 1)] (some []) "bogus" (Value.i 1) rfl

/-- C9: with an unknown attribute name, query returns no result object at
all (None, not an empty row collection), and query_files consequently
fails with a TypeError when it iterates the result instead of returning a
list. -/
theorem C9_query_none_typeerror :
    ∀ (kwargs : List (String × Value)) (st : Option Table) (kv : String × Value),
      kwargs.find? (fun kv2 => !(columnNames.contains kv2.1)) = some kv →
      (query kwargs st).2 = .ok none ∧
      (∀ rows : List Record, (query kwargs st).2 ≠ .ok (some rows)) ∧
      (query_files kwargs st).2 = .error DbError.typeErr := by
  intro kwargs st kv hf
  have hq : query kwargs st = ([illegalMsg kv.1, allowedMsg], .ok none) := by
    unfold query
    rw [hf]
  refine ⟨by rw [hq], ?_, ?_⟩
  · intro rows hc
    rw [hq] at hc
    simp at hc
  · unfold query_files
    rw [hq]

/-- C9 witness: query_files(bogus=1) fails with a TypeError while
query(bogus=1) returns None. -/
theorem C9_query_none_typeerror_witness :
    (query [("bogus", Value.i 1)] (some [])).2 = .ok none ∧
    (∀ rows : List Record, (query [("bogus", Value.i 1)] (some [])).2 ≠ .ok (some rows)) ∧
    (query_files [("bogus", Value.i 1)] (some [])).2 = .error DbError.typeErr :=
  C9_query_none_typeerror [("bogus", Value.i 1)] (some []) ("bogus", Value.i 1) rfl

/-- C10: query with no keyword arguments builds the malformed statement
SELECT * FROM files WHERE with an empty conjunction, raises the syntax
error of the store, and never returns a row collection. -/
theorem C10_empty_query_syntax_error :
    querySql [] = "SELECT * FROM files WHERE " ∧
    ∀ st : Option Table,
      (query [] st).2 = .error (DbError.sqlSyntax "SELECT * FROM files WHERE ") ∧
      ∀ rows : Option (List Record), (query [] st).2 ≠ .ok rows := by
  refine ⟨rfl, fun st => ⟨rfl, fun rows hc => ?_⟩⟩
  have hv : (query [] st).2 = .error (DbError.sqlSyntax "SELECT * FROM files WHERE ") := rfl
  rw [hv] at hc
  exact Except.noConfusion hc

/-- C10 witness: the empty query on a one-row table raises the syntax
error and returns nothing. -/
theorem C10_empty_query_syntax_error_witness :
    (query [] (some [emptyRecord])).2 = .error (DbError.sqlSyntax "SELECT * FROM files WHERE ") ∧
    (query [] (some [emptyRecord])).2 ≠ .ok (some [emptyRecord]) :=
  ⟨(C10_empty_query_syntax_error.2 (some [emptyRecord])).1,
   (C10_empty_query_syntax_error.2 (some [emptyRecord])).2 (some [emptyRecord])⟩

end Fitness
